import Mathlib

/-!
# Verification of the BAAS License & Entitlement Engine

Shallow embedding of `apps/baas-api/worker.js` (license issuance, device
activation, heartbeat, usage metering, coupon redemption, revocation)
against the D1 schema in `db/schema.sql`.  The database is modelled as
lists of rows; each HTTP handler becomes a pure function from a database
state (plus the request data and the values the runtime supplies:
current time, fresh UUIDs, fresh random challenges) to a result and a
new database state.
-/

namespace BAAS

/-! ## Calendar model of the JS `Date` runtime (UTC)

The worker runs on Cloudflare Workers, whose local time zone is UTC, so
`getFullYear`/`getMonth`/`getDate` agree with their UTC counterparts.
`civilFromDays` models the runtime's conversion of an epoch-day number
(`floor(epochMillis / 86400000)`) to `(year, month 1..12, day 1..31)`
by scanning the proleptic-Gregorian year and month lengths forward from
1970-01-01; `daysFromCivil` models ECMAScript `MakeDay` as used by the
`new Date(year, monthIndex, day)` constructor: day-number of the first
day of the month plus `day - 1`, linear in `day` (out-of-range day
values carry over, exactly as the JS constructor normalises them). -/

/-- Gregorian leap-year rule. -/
def isLeap (y : Nat) : Bool := (y % 4 == 0 && y % 100 != 0) || y % 400 == 0

/-- Number of days in year `y`. -/
def yearLen (y : Nat) : Nat := if isLeap y then 366 else 365

/-- Number of days in month `m` (1-based) of year `y`. -/
def monthLen (y m : Nat) : Nat :=
  if m = 2 then (if isLeap y then 29 else 28)
  else if m = 4 ∨ m = 6 ∨ m = 9 ∨ m = 11 then 30
  else 31

/-- Days of year `y` strictly before month `m` (1-based). -/
def daysBeforeMonth (y : Nat) : Nat → Nat
  | 0 => 0
  | m + 1 => if m = 0 then 0 else daysBeforeMonth y m + monthLen y m

/-- Total length of the `k` consecutive years starting at year `y`. -/
def sumYearLens : Nat → Nat → Nat
  | _, 0 => 0
  | y, k + 1 => yearLen y + sumYearLens (y + 1) k

/-- Scan forward from year `y` until the remaining day count `r` falls
inside a year; returns the year and the day-of-year (0-based).  `fuel`
bounds the recursion (any `fuel ≥ r` is enough since years are
non-empty). -/
def findYear : Nat → Nat → Nat → Nat × Nat
  | 0, y, r => (y, r)
  | fuel + 1, y, r => if r < yearLen y then (y, r) else findYear fuel (y + 1) (r - yearLen y)

/-- Scan forward from month `m` of year `y` until the remaining
day-of-year `r` falls inside a month; returns the month and the
0-based day-of-month. -/
def findMonth : Nat → Nat → Nat → Nat → Nat × Nat
  | 0, _, m, r => (m, r)
  | fuel + 1, y, m, r =>
    if r < monthLen y m then (m, r) else findMonth fuel y (m + 1) (r - monthLen y m)

/-- Civil date `(year, month 1..12, day 1..31)` of an epoch-day number
(what `getUTCFullYear`/`getUTCMonth + 1`/`getUTCDate` return). -/
def civilFromDays (z : Nat) : Nat × Nat × Nat :=
  let yr := findYear z 1970 z
  let mo := findMonth 11 yr.1 1 yr.2
  (yr.1, mo.1, mo.2 + 1)

/-- Epoch-day number of a civil date (ECMAScript `MakeDay`; the day
field may exceed the month length and carries over linearly). -/
def daysFromCivil (y m d : Nat) : Nat :=
  sumYearLens 1970 (y - 1970) + daysBeforeMonth y m + (d - 1)

theorem yearLen_pos (y : Nat) : 365 ≤ yearLen y := by
  unfold yearLen; split <;> omega

theorem monthLen_pos (y m : Nat) : 28 ≤ monthLen y m := by
  unfold monthLen; split
  · split <;> omega
  · split <;> omega

theorem daysBeforeMonth_succ (y m : Nat) (hm : 1 ≤ m) :
    daysBeforeMonth y (m + 1) = daysBeforeMonth y m + monthLen y m := by
  have : ¬ (m = 0) := by omega
  simp [daysBeforeMonth, this]

theorem daysBeforeMonth_twelve (y : Nat) :
    daysBeforeMonth y 12 + monthLen y 12 = yearLen y := by
  cases h : isLeap y <;> simp [daysBeforeMonth, monthLen, yearLen, h]

theorem findYear_spec : ∀ (fuel y r : Nat), r ≤ fuel →
    (findYear fuel y r).2 < yearLen (findYear fuel y r).1 ∧
    y ≤ (findYear fuel y r).1 ∧
    sumYearLens y ((findYear fuel y r).1 - y) + (findYear fuel y r).2 = r := by
  intro fuel
  induction fuel with
  | zero =>
    intro y r hr
    have hr0 : r = 0 := by omega
    subst hr0
    refine ⟨by have := yearLen_pos y; simpa [findYear] using by omega, ?_, ?_⟩
    · simp [findYear]
    · simp [findYear, sumYearLens]
  | succ fuel ih =>
    intro y r hr
    by_cases h : r < yearLen y
    · refine ⟨by simp [findYear, h], by simp [findYear, h], ?_⟩
      simp [findYear, h, sumYearLens]
    · have hy := yearLen_pos y
      have hr' : r - yearLen y ≤ fuel := by omega
      obtain ⟨i1, i2, i3⟩ := ih (y + 1) (r - yearLen y) hr'
      have heq : findYear (fuel + 1) y r = findYear fuel (y + 1) (r - yearLen y) := by
        simp [findYear, h]
      refine ⟨by rw [heq]; exact i1, by rw [heq]; omega, ?_⟩
      rw [heq]
      set y' := (findYear fuel (y + 1) (r - yearLen y)).1 with hy'
      have hk : y' - y = (y' - (y + 1)) + 1 := by omega
      rw [hk]
      show yearLen y + sumYearLens (y + 1) (y' - (y + 1)) + _ = r
      omega

theorem findMonth_spec : ∀ (fuel y m r : Nat), m + fuel = 12 → 1 ≤ m →
    daysBeforeMonth y m + r < yearLen y →
    1 ≤ (findMonth fuel y m r).1 ∧ (findMonth fuel y m r).1 ≤ 12 ∧
    (findMonth fuel y m r).2 < monthLen y (findMonth fuel y m r).1 ∧
    daysBeforeMonth y (findMonth fuel y m r).1 + (findMonth fuel y m r).2 =
      daysBeforeMonth y m + r := by
  intro fuel
  induction fuel with
  | zero =>
    intro y m r hfuel hm hr
    have hm12 : m = 12 := by omega
    subst hm12
    have h12 := daysBeforeMonth_twelve y
    refine ⟨by simp [findMonth], by simp [findMonth], ?_, by simp [findMonth]⟩
    simp only [findMonth]
    omega
  | succ fuel ih =>
    intro y m r hfuel hm hr
    by_cases h : r < monthLen y m
    · refine ⟨by simp [findMonth, h]; omega, by simp [findMonth, h]; omega,
        by simp [findMonth, h], by simp [findMonth, h]⟩
    · have hstep := daysBeforeMonth_succ y m hm
      have heq : findMonth (fuel + 1) y m r = findMonth fuel y (m + 1) (r - monthLen y m) := by
        simp [findMonth, h]
      have hr' : daysBeforeMonth y (m + 1) + (r - monthLen y m) < yearLen y := by omega
      obtain ⟨i1, i2, i3, i4⟩ := ih y (m + 1) (r - monthLen y m) (by omega) (by omega) hr'
      rw [heq]
      exact ⟨i1, i2, i3, by omega⟩

/-- Round trip: rebuilding the epoch-day number from the civil date
returned by `civilFromDays` gives back the same day number. -/
theorem daysFromCivil_civilFromDays (z : Nat) :
    daysFromCivil (civilFromDays z).1 (civilFromDays z).2.1 (civilFromDays z).2.2 = z := by
  obtain ⟨y1, y2, y3⟩ := findYear_spec z 1970 z (Nat.le_refl z)
  have hbm1 : daysBeforeMonth (findYear z 1970 z).1 1 = 0 := by simp [daysBeforeMonth]
  obtain ⟨m1, m2, m3, m4⟩ :=
    findMonth_spec 11 (findYear z 1970 z).1 1 (findYear z 1970 z).2 (by omega) (by omega)
      (by rw [hbm1]; simpa using y1)
  show sumYearLens 1970 ((findYear z 1970 z).1 - 1970) +
      daysBeforeMonth (findYear z 1970 z).1 (findMonth 11 (findYear z 1970 z).1 1 (findYear z 1970 z).2).1 +
      ((findMonth 11 (findYear z 1970 z).1 1 (findYear z 1970 z).2).2 + 1 - 1) = z
  omega

/-- The day-of-month returned by `civilFromDays` is at least 1. -/
theorem civilFromDays_day_pos (z : Nat) : 1 ≤ (civilFromDays z).2.2 := by
  show 1 ≤ (findMonth 11 (findYear z 1970 z).1 1 (findYear z 1970 z).2).2 + 1
  omega

/-- `MakeDay` is linear in the day field (for day ≥ 1). -/
theorem daysFromCivil_succ (y m d : Nat) (hd : 1 ≤ d) :
    daysFromCivil y m (d + 1) = daysFromCivil y m d + 1 := by
  unfold daysFromCivil; omega

/-! ## Data model (`db/schema.sql`)

Rows of the five relations the claims touch.  `quotas` and
`plan_details_json` are stored as JSON text and parsed with
`JSON.parse` before use; they are modelled here in parsed form.  JS
numbers that the code only ever adds/compares are modelled as `Int`;
timestamps are `Nat` (epoch milliseconds or seconds, as each column
uses them). -/

/-- Parsed form of a license's `quotas` JSON:
`{ daily?: number, byCategory?: { [bucket]: { daily?: number } } }`.
`byCategory` maps a bucket name to the bucket's `daily` field. -/
structure Quotas where
  daily : Option Int
  byCategory : List (String × Option Int)
  deriving DecidableEq

/-- A row of `licenses`. -/
structure License where
  jti : String
  projectId : String
  type : String
  quotas : Quotas
  exp : Int
  revoked : Bool
  deriving DecidableEq

/-- A row of `activation_sessions`. -/
structure Session where
  activationId : String
  jti : String
  challenge : String
  deviceInfo : String
  deriving DecidableEq

/-- A row of `activations`. -/
structure Activation where
  activationId : String
  jti : String
  deviceId : String
  credentialId : String
  publicKey : String
  lastSeen : Int
  revoked : Bool
  deriving DecidableEq

/-- A row of `usage`. -/
structure UsageRecord where
  jti : String
  deviceId : String
  bucket : String
  cost : Int
  dayKey : Nat
  minuteKey : Nat
  monthKey : String
  deriving DecidableEq

/-- A row of `users_seen` (the `UNIQUE(jti, device_id, user_hash)` key). -/
structure UserSeen where
  jti : String
  deviceId : String
  userHash : String
  deriving DecidableEq

/-- A row of `coupon_codes`; `plan_details_json` is stored parsed as
`planDurationDays`/`planQuotas`. -/
structure Coupon where
  code : String
  projectId : String
  planDurationDays : Int
  planQuotas : Quotas
  maxUses : Int
  currentUses : Int
  expiresAt : Option Int
  deriving DecidableEq

/-- The D1 database state. -/
structure DB where
  licenses : List License
  activationSessions : List Session
  activations : List Activation
  usage : List UsageRecord
  usersSeen : List UserSeen
  coupons : List Coupon
  deriving DecidableEq

/-! ## Signed tokens

A JWT is `header.payload.signature`.  The handlers under test only ever
`JSON.parse(atob(token.split('.')[1]))` — i.e. read the payload — so a
token is modelled as its decoded payload plus one abstract bit,
`sigValid`: whether the RS256 signature verifies against the service's
public key.  `signJwt` produces tokens with `sigValid = true`; a token
in which any byte of the payload or signature was changed has
`sigValid = false`.  A handler that never inspects `sigValid` performs
no signature verification. -/

structure Jwt (α : Type) where
  payload : α
  sigValid : Bool
  deriving DecidableEq

/-- Payload of a license token (`{ aud, jti, type, exp }`). -/
structure LicenseClaims where
  aud : String
  jti : String
  type : String
  exp : Int
  deriving DecidableEq

/-- Payload of an activation certificate
(`{ typ, projectId, jti, deviceId, level, exp }`). -/
structure CertClaims where
  typ : String
  projectId : String
  jti : String
  deviceId : String
  level : String
  exp : Int
  deriving DecidableEq

/-! ## Endpoint handlers (`apps/baas-api/worker.js`) -/

/-- JS truthiness of a possibly-absent number (`0`, `null` and
`undefined` are falsy). -/
def truthyInt : Option Int → Bool
  | none => false
  | some n => n != 0

/-- JS `a || b` on possibly-absent numbers. -/
def jsOrInt (a b : Option Int) : Option Int := if truthyInt a then a else b

/-- JS truthiness of a possibly-absent string (`""`, `null` and
`undefined` are falsy). -/
def truthyStr : Option String → Bool
  | none => false
  | some s => s != ""

/-- `SELECT * FROM licenses WHERE jti = ?1 AND revoked = 0`, `.first()`. -/
def findLicense (db : DB) (jti : String) : Option License :=
  db.licenses.find? (fun l => l.jti == jti && l.revoked == false)

/-- `quotas.byCategory && quotas.byCategory[bucket]`, then `.daily`. -/
def bucketDaily (q : Quotas) (bucket : String) : Option Int :=
  match q.byCategory.find? (fun p => p.1 == bucket) with
  | some p => p.2
  | none => none

/-- `const dailyLimit = bucketQuota.daily || quotas.daily` (worker.js:195). -/
def resolveDailyLimit (q : Quotas) (bucket : String) : Option Int :=
  jsOrInt (bucketDaily q bucket) q.daily

/-- `SELECT SUM(cost) as total FROM usage WHERE jti = ?1 AND day_key = ?2
AND bucket = ?3`, with the code's `results[0]?.total || 0` (an empty sum
is `NULL`, hence `0`). -/
def sumUsage (db : DB) (jti : String) (dayKey : Nat) (bucket : String) : Int :=
  (db.usage.filter
    (fun u => u.jti == jti && u.dayKey == dayKey && u.bucket == bucket)).foldl
    (fun s u => s + u.cost) 0

/-- `Math.floor(today.getTime() / 86400000)`. -/
def dayKeyOf (tMs : Nat) : Nat := tMs / 86400000

/-- `Math.floor(now.getTime() / 60000)`. -/
def minuteKeyOf (tMs : Nat) : Nat := tMs / 60000

/-- `String(n).padStart(2, '0')`. -/
def pad2 (n : Nat) : String := if n < 10 then "0" ++ toString n else toString n

/-- `` `${now.getUTCFullYear()}${String(now.getUTCMonth() + 1).padStart(2, '0')}` ``. -/
def monthKeyOf (tMs : Nat) : String :=
  toString (civilFromDays (dayKeyOf tMs)).1 ++ pad2 (civilFromDays (dayKeyOf tMs)).2.1

/-- `new Date(today.getFullYear(), today.getMonth(), today.getDate() + 1)`
as epoch milliseconds (the handler returns its ISO string; the instant
determines the string).  The runtime's zone is UTC. -/
def resetAtOf (tMs : Nat) : Nat :=
  daysFromCivil (civilFromDays (dayKeyOf tMs)).1 (civilFromDays (dayKeyOf tMs)).2.1
    ((civilFromDays (dayKeyOf tMs)).2.2 + 1) * 86400000

/-- `resetAt` is the start of the next UTC day after `tMs`. -/
theorem resetAtOf_eq (tMs : Nat) : resetAtOf tMs = (tMs / 86400000 + 1) * 86400000 := by
  unfold resetAtOf
  rw [daysFromCivil_succ _ _ _ (civilFromDays_day_pos (dayKeyOf tMs)),
    daysFromCivil_civilFromDays]
  rfl

/-- Result of `POST /v1/usage/meter` (worker.js:182-219). -/
inductive MeterResult where
  /-- 403 `Invalid or expired license.` -/
  | invalid
  /-- 429 `{ allowed: false, bucket, remaining, resetAt }`. -/
  | denied (bucket : String) (remaining : Int) (resetAtMs : Nat)
  /-- 200 `{ allowed: true }`. -/
  | allowed
  deriving DecidableEq

/-- `POST /v1/usage/meter` (worker.js:182-219).  The certificate's
payload is decoded without verification (`TODO: Verify activationCert`,
worker.js:184); `tMs` is `Date.now()` during the request. -/
def meterUsage (db : DB) (tMs : Nat) (activationCert : Jwt CertClaims)
    (bucket : String) (cost : Int) : MeterResult × DB :=
  match findLicense db activationCert.payload.jti with
  | none => (.invalid, db)
  | some lic =>
    if lic.exp * 1000 < (tMs : Int) then (.invalid, db)
    else
      match resolveDailyLimit lic.quotas bucket with
      | some limit =>
        if limit != 0 then
          if sumUsage db activationCert.payload.jti (dayKeyOf tMs) bucket + cost > limit then
            (.denied bucket (limit - sumUsage db activationCert.payload.jti (dayKeyOf tMs) bucket)
              (resetAtOf tMs), db)
          else
            (.allowed, { db with usage := db.usage ++
              [⟨activationCert.payload.jti, activationCert.payload.deviceId, bucket, cost,
                dayKeyOf tMs, minuteKeyOf tMs, monthKeyOf tMs⟩] })
        else
          (.allowed, { db with usage := db.usage ++
            [⟨activationCert.payload.jti, activationCert.payload.deviceId, bucket, cost,
              dayKeyOf tMs, minuteKeyOf tMs, monthKeyOf tMs⟩] })
      | none =>
        (.allowed, { db with usage := db.usage ++
          [⟨activationCert.payload.jti, activationCert.payload.deviceId, bucket, cost,
            dayKeyOf tMs, minuteKeyOf tMs, monthKeyOf tMs⟩] })

/-- `INSERT OR IGNORE INTO users_seen (jti, device_id, user_hash)`:
a row matching the `UNIQUE(jti, device_id, user_hash)` key is ignored. -/
def insertOrIgnoreSeen (l : List UserSeen) (u : UserSeen) : List UserSeen :=
  if u ∈ l then l else l ++ [u]

/-- `POST /v1/heartbeat` (worker.js:164-179).  The certificate's payload
is decoded without verification (`TODO: Verify activationCert`,
worker.js:166); the `last_seen` update is unconditional on the
`(jti, device_id)` pair and the handler always answers `{ ok: true }`. -/
def heartbeat (db : DB) (nowSec : Int) (activationCert : Jwt CertClaims)
    (userIdHash : Option String) : Bool × DB :=
  let c := activationCert.payload
  let acts := db.activations.map (fun a =>
    if a.jti == c.jti && a.deviceId == c.deviceId then { a with lastSeen := nowSec } else a)
  let seen :=
    if truthyStr userIdHash then
      insertOrIgnoreSeen db.usersSeen ⟨c.jti, c.deviceId, userIdHash.getD ""⟩
    else db.usersSeen
  (true, { db with activations := acts, usersSeen := seen })

/-- Result of `POST /v1/activate/start` (worker.js:90-129). -/
inductive StartResult where
  /-- 400 `Invalid token audience.` -/
  | badAudience
  /-- 400 `License token has expired.` -/
  | expiredToken
  /-- 404 `License not found, has been revoked, or is invalid.` -/
  | notFound
  /-- 200 `{ activationId, options }` (the options carry the challenge). -/
  | ok (activationId : String) (challenge : String)
  deriving DecidableEq

/-- `POST /v1/activate/start` (worker.js:90-129).  The license token is
only decoded, never verified (`TODO: Implement full JWT parsing and
verification with PUBLIC_JWK_JSON`, worker.js:93-95).
`freshActivationId` models `crypto.randomUUID()` and `freshChallenge`
the base64url of `crypto.getRandomValues(new Uint8Array(32))`. -/
def activateStart (db : DB) (tMs : Nat) (projectId : String)
    (licenseToken : Jwt LicenseClaims) (deviceInfo : String)
    (freshActivationId freshChallenge : String) : StartResult × DB :=
  let d := licenseToken.payload
  if d.aud != projectId then (.badAudience, db)
  else if (tMs : Int) > d.exp * 1000 then (.expiredToken, db)
  else
    match findLicense db d.jti with
    | none => (.notFound, db)
    | some _ =>
      (.ok freshActivationId freshChallenge,
       { db with activationSessions := db.activationSessions ++
          [⟨freshActivationId, d.jti, freshChallenge, deviceInfo⟩] })

/-- Result of `POST /v1/activate/finish` (worker.js:132-160). -/
inductive FinishResult where
  /-- 404 `Activation session not found or expired.` -/
  | sessionNotFound
  /-- An exception escaping the handler (the D1 `INSERT` rejecting a
  duplicate key, or reading `.project_id` of a missing license row);
  the worker has no error handler, so this surfaces as a 500, not as a
  handled JSON error. -/
  | dbError
  /-- 200 `{ activationCert }`. -/
  | ok (activationCert : Jwt CertClaims)
  deriving DecidableEq

/-- `INSERT INTO activations ...` honouring the schema's
`PRIMARY KEY (activation_id)` and `UNIQUE (jti, device_id)`
(db/schema.sql:35-46); a duplicate key makes the statement throw. -/
def insertActivation (acts : List Activation) (a : Activation) : Option (List Activation) :=
  if acts.any (fun b =>
      b.activationId == a.activationId || (b.jti == a.jti && b.deviceId == a.deviceId))
  then none else some (acts ++ [a])

/-- `POST /v1/activate/finish` (worker.js:132-160).  The WebAuthn
credential is not validated (`TODO: Full WebAuthn credential
validation`, worker.js:140); the session row is read but never deleted
or marked used.  `freshDeviceId` models `crypto.randomUUID()`;
`nowSec` is `Math.floor(Date.now() / 1000)`. -/
def activateFinish (db : DB) (nowSec : Int) (activationId : String)
    (credentialId : String) (freshDeviceId : String) : FinishResult × DB :=
  match db.activationSessions.find? (fun s => s.activationId == activationId) with
  | none => (.sessionNotFound, db)
  | some session =>
    match insertActivation db.activations
        ⟨activationId, session.jti, freshDeviceId, credentialId, "{}", nowSec, false⟩ with
    | none => (.dbError, db)
    | some acts =>
      match db.licenses.find? (fun l => l.jti == session.jti) with
      | none => (.dbError, { db with activations := acts })
      | some lic =>
        (.ok ⟨⟨"activation", lic.projectId, session.jti, freshDeviceId, "webauthn",
            nowSec + 7 * 24 * 60 * 60⟩, true⟩,
         { db with activations := acts })

/-- Result of `POST /v1/coupons/redeem` (worker.js:222-266). -/
inductive RedeemResult where
  /-- 400 `couponCode and projectId are required.` -/
  | missingFields
  /-- 404 `Invalid or expired coupon code.` -/
  | notFound
  /-- 403 `This coupon has reached its maximum number of uses.` -/
  | exhausted
  /-- 403 `This coupon has expired.` -/
  | expired
  /-- 200 `{ licenseToken }`. -/
  | ok (licenseToken : Jwt LicenseClaims)
  deriving DecidableEq

/-- The read-and-check phase of `POST /v1/coupons/redeem`
(worker.js:223-241): the `SELECT`, the `current_uses >= max_uses` check
and the expiry check.  On success it returns the coupon row as read. -/
def redeemCheck (db : DB) (tMs : Nat) (couponCode projectId : String) :
    Except RedeemResult Coupon :=
  if couponCode == "" || projectId == "" then .error .missingFields
  else
    match db.coupons.find? (fun c => c.code == couponCode && c.projectId == projectId) with
    | none => .error .notFound
    | some coupon =>
      if coupon.currentUses ≥ coupon.maxUses then .error .exhausted
      else
        match coupon.expiresAt with
        | some e =>
          if e != 0 && e * 1000 < (tMs : Int) then .error .expired else .ok coupon
        | none => .ok coupon

/-- The write phase of `POST /v1/coupons/redeem` (worker.js:244-265):
`INSERT INTO licenses ...` from the plan of the coupon row read in the
check phase, then the unconditioned
`UPDATE coupon_codes SET current_uses = current_uses + 1 WHERE code = ?1`,
then the signed license token.  `freshJti` models `crypto.randomUUID()`. -/
def redeemWrites (db : DB) (tMs : Nat) (couponCode projectId : String)
    (coupon : Coupon) (freshJti : String) : Jwt LicenseClaims × DB :=
  let exp : Int := ((tMs / 1000 : Nat) : Int) + coupon.planDurationDays * 24 * 60 * 60
  let licenses := db.licenses ++ [⟨freshJti, projectId, "individual", coupon.planQuotas, exp, false⟩]
  let coupons := db.coupons.map (fun c =>
    if c.code == couponCode then { c with currentUses := c.currentUses + 1 } else c)
  (⟨⟨projectId, freshJti, "individual", exp⟩, true⟩,
   { db with licenses := licenses, coupons := coupons })

/-- `POST /v1/coupons/redeem` (worker.js:222-266): check phase, then
write phase. -/
def redeemCoupon (db : DB) (tMs : Nat) (couponCode projectId : String)
    (freshJti : String) : RedeemResult × DB :=
  match redeemCheck db tMs couponCode projectId with
  | .error e => (e, db)
  | .ok coupon =>
    let r := redeemWrites db tMs couponCode projectId coupon freshJti
    (.ok r.1, r.2)

/-- `POST /admin/licenses/revoke` (worker.js:316-323): a `DB.batch` of
the two cascaded `UPDATE`s (atomic: both or neither). -/
def revokeLicense (db : DB) (jti : String) : DB :=
  { db with
    licenses := db.licenses.map (fun l =>
      if l.jti == jti then { l with revoked := true } else l),
    activations := db.activations.map (fun a =>
      if a.jti == jti then { a with revoked := true } else a) }

/-- `GET /v1/revocations` (worker.js:69-86). -/
def listRevocations (db : DB) (projectId : String) : List String :=
  (db.licenses.filter (fun l => l.projectId == projectId && l.revoked == true)).map
    (fun l => l.jti)

/-! ## Helper lemmas about the metering path -/

theorem findLicense_congr (db db' : DB) (jti : String) (h : db'.licenses = db.licenses) :
    findLicense db' jti = findLicense db jti := by
  unfold findLicense; rw [h]

theorem sumUsage_append (db : DB) (u : UsageRecord) (jti : String) (dk : Nat) (bucket : String)
    (hj : u.jti = jti) (hd : u.dayKey = dk) (hb : u.bucket = bucket) :
    sumUsage { db with usage := db.usage ++ [u] } jti dk bucket =
      sumUsage db jti dk bucket + u.cost := by
  unfold sumUsage
  have hu : List.filter (fun r => r.jti == jti && r.dayKey == dk && r.bucket == bucket)
      (db.usage ++ [u]) =
      List.filter (fun r => r.jti == jti && r.dayKey == dk && r.bucket == bucket) db.usage
        ++ [u] := by
    rw [List.filter_append]
    simp [List.filter, hj, hd, hb]
  show (List.filter _ (db.usage ++ [u])).foldl _ 0 = _
  rw [hu, List.foldl_append]
  rfl

/-- A successful meter call with headroom under a truthy limit:
admitted, one record appended. -/
theorem meterUsage_allowed_under (db : DB) (tMs : Nat) (cert : Jwt CertClaims)
    (bucket : String) (cost : Int) (lic : License) (L : Int)
    (hfind : findLicense db cert.payload.jti = some lic)
    (hexp : ¬ lic.exp * 1000 < (tMs : Int))
    (hlim : resolveDailyLimit lic.quotas bucket = some L) (hL : L ≠ 0)
    (hle : sumUsage db cert.payload.jti (dayKeyOf tMs) bucket + cost ≤ L) :
    meterUsage db tMs cert bucket cost =
      (.allowed, { db with usage := db.usage ++
        [⟨cert.payload.jti, cert.payload.deviceId, bucket, cost, dayKeyOf tMs,
          minuteKeyOf tMs, monthKeyOf tMs⟩] }) := by
  unfold meterUsage
  simp only [hfind, if_neg hexp, hlim]
  split_ifs with h1 h2
  · exact absurd h2 (by omega)
  · rfl
  · exact absurd (by simpa using h1) hL

/-- A meter call over a truthy limit: denied, database unchanged. -/
theorem meterUsage_denied_over (db : DB) (tMs : Nat) (cert : Jwt CertClaims)
    (bucket : String) (cost : Int) (lic : License) (L : Int)
    (hfind : findLicense db cert.payload.jti = some lic)
    (hexp : ¬ lic.exp * 1000 < (tMs : Int))
    (hlim : resolveDailyLimit lic.quotas bucket = some L) (hL : L ≠ 0)
    (hover : sumUsage db cert.payload.jti (dayKeyOf tMs) bucket + cost > L) :
    meterUsage db tMs cert bucket cost =
      (.denied bucket (L - sumUsage db cert.payload.jti (dayKeyOf tMs) bucket)
        (resetAtOf tMs), db) := by
  unfold meterUsage
  simp only [hfind, if_neg hexp, hlim]
  split_ifs with h1
  · rfl
  · exact absurd (by simpa using h1) hL

/-- A meter call under a falsy resolved limit: no quota check, admitted. -/
theorem meterUsage_falsy_allowed (db : DB) (tMs : Nat) (cert : Jwt CertClaims)
    (bucket : String) (cost : Int) (lic : License)
    (hfind : findLicense db cert.payload.jti = some lic)
    (hexp : ¬ lic.exp * 1000 < (tMs : Int))
    (hfalsy : truthyInt (resolveDailyLimit lic.quotas bucket) = false) :
    meterUsage db tMs cert bucket cost =
      (.allowed, { db with usage := db.usage ++
        [⟨cert.payload.jti, cert.payload.deviceId, bucket, cost, dayKeyOf tMs,
          minuteKeyOf tMs, monthKeyOf tMs⟩] }) := by
  unfold meterUsage
  simp only [hfind, if_neg hexp]
  cases hres : resolveDailyLimit lic.quotas bucket with
  | none => rfl
  | some L =>
    rw [hres] at hfalsy
    have h0 : L = 0 := by simpa [truthyInt] using hfalsy
    dsimp only
    split_ifs with h1 h2
    · exact absurd h1 (by simp [h0])
    · exact absurd h1 (by simp [h0])
    · rfl

/-- `n` sequential meter calls of cost 1 against the same database. -/
def meterSeq (tMs : Nat) (cert : Jwt CertClaims) (bucket : String) (cost : Int) :
    Nat → DB → List MeterResult × DB
  | 0, db => ([], db)
  | n + 1, db =>
    let r := meterUsage db tMs cert bucket cost
    let rest := meterSeq tMs cert bucket cost n r.2
    (r.1 :: rest.1, rest.2)

/-- While `n` more admissions fit under the limit, all `n` sequential
cost-1 calls are admitted, each appends exactly one record, and the
cumulative day-window sum grows by exactly `n`. -/
theorem meterSeq_allowed_invariant (tMs : Nat) (cert : Jwt CertClaims) (bucket : String)
    (lic : License) (L : Int) :
    ∀ (n : Nat) (db : DB),
      findLicense db cert.payload.jti = some lic →
      ¬ lic.exp * 1000 < (tMs : Int) →
      resolveDailyLimit lic.quotas bucket = some L →
      L ≠ 0 →
      sumUsage db cert.payload.jti (dayKeyOf tMs) bucket + (n : Int) ≤ L →
      (∀ r ∈ (meterSeq tMs cert bucket 1 n db).1, r = .allowed) ∧
      (meterSeq tMs cert bucket 1 n db).2.licenses = db.licenses ∧
      (meterSeq tMs cert bucket 1 n db).2.usage.length = db.usage.length + n ∧
      sumUsage (meterSeq tMs cert bucket 1 n db).2 cert.payload.jti (dayKeyOf tMs) bucket =
        sumUsage db cert.payload.jti (dayKeyOf tMs) bucket + (n : Int) := by
  intro n
  induction n with
  | zero =>
    intro db _ _ _ _ _
    refine ⟨?_, rfl, ?_, ?_⟩
    · intro r hr; simp [meterSeq] at hr
    · simp [meterSeq]
    · simp [meterSeq]
  | succ n ih =>
    intro db hfind hexp hlim hL hsum
    have hstep := meterUsage_allowed_under db tMs cert bucket 1 lic L hfind hexp hlim hL
      (by push_cast at hsum ⊢; omega)
    have hsumu : sumUsage { db with usage := db.usage ++
          [⟨cert.payload.jti, cert.payload.deviceId, bucket, 1, dayKeyOf tMs,
            minuteKeyOf tMs, monthKeyOf tMs⟩] } cert.payload.jti (dayKeyOf tMs) bucket =
        sumUsage db cert.payload.jti (dayKeyOf tMs) bucket + 1 :=
      sumUsage_append db _ cert.payload.jti (dayKeyOf tMs) bucket rfl rfl rfl
    obtain ⟨i1, i2, i3, i4⟩ := ih { db with usage := db.usage ++
        [⟨cert.payload.jti, cert.payload.deviceId, bucket, 1, dayKeyOf tMs,
          minuteKeyOf tMs, monthKeyOf tMs⟩] } hfind hexp hlim hL
      (by rw [hsumu]; push_cast at hsum ⊢; omega)
    have hseq : meterSeq tMs cert bucket 1 (n + 1) db =
        ((meterUsage db tMs cert bucket 1).1 ::
          (meterSeq tMs cert bucket 1 n (meterUsage db tMs cert bucket 1).2).1,
         (meterSeq tMs cert bucket 1 n (meterUsage db tMs cert bucket 1).2).2) := rfl
    rw [hseq, hstep]
    dsimp only
    refine ⟨?_, i2, ?_, ?_⟩
    · intro r hr
      rcases List.mem_cons.mp hr with h | h
      · exact h
      · exact i1 r h
    · rw [i3]; simp; omega
    · rw [i4, hsumu]; push_cast; ring

/-- A map whose function fixes every element of a list is the identity. -/
theorem map_eq_self_of {α : Type} (f : α → α) :
    ∀ l : List α, (∀ a ∈ l, f a = a) → l.map f = l
  | [], _ => rfl
  | a :: l, h => by
    have ht := map_eq_self_of f l (fun b hb => h b (List.mem_cons_of_mem a hb))
    simp only [List.map, h a (List.mem_cons_self a l), ht]

/-! ## Concrete fixtures used by the counterexample/bug theorems -/

/-- Empty quota object (`JSON.parse('{}')`). -/
def q0 : Quotas := ⟨none, []⟩

/-- A coupon with one remaining use. -/
def couponC : Coupon := ⟨"CODE1", "p1", 30, q0, 1, 0, none⟩

/-- Database holding only `couponC`. -/
def dbCoupon : DB := ⟨[], [], [], [], [], [couponC]⟩

/-- A valid, unrevoked license (expiry 2033). -/
def licL1 : License := ⟨"L1", "p1", "individual", q0, 2000000000, false⟩

/-- Database holding only `licL1`. -/
def dbLic : DB := ⟨[licL1], [], [], [], [], []⟩

/-- A license token for `licL1` whose signature does NOT verify. -/
def forgedLicTok : Jwt LicenseClaims := ⟨⟨"p1", "L1", "individual", 2000000000⟩, false⟩

/-- An activation certificate for `(L1, d1)` whose signature does NOT verify. -/
def forgedCert : Jwt CertClaims :=
  ⟨⟨"activation", "p1", "L1", "d1", "webauthn", 2000000000⟩, false⟩

/-- An activation certificate for `(L1, d1)` with a valid signature. -/
def certL1 : Jwt CertClaims :=
  ⟨⟨"activation", "p1", "L1", "d1", "webauthn", 2000000000⟩, true⟩

/-- An activation session for `licL1`. -/
def sessA : Session := ⟨"a1", "L1", "ch", "di"⟩

/-- A second activation session for the same license `licL1`. -/
def sessB : Session := ⟨"a2", "L1", "ch2", "di2"⟩

/-- Database with `licL1` and one pending session. -/
def dbSess : DB := ⟨[licL1], [sessA], [], [], [], []⟩

/-- Database with `licL1` and two pending sessions. -/
def dbSess2 : DB := ⟨[licL1], [sessA, sessB], [], [], [], []⟩

/-- An existing activation binding `L1` to device `d1`. -/
def actA : Activation := ⟨"a1", "L1", "d1", "c1", "{}", 0, false⟩

/-- Database with `licL1` bound to `d1`. -/
def dbAct : DB := ⟨[licL1], [], [actA], [], [], []⟩

/-! ## Claim theorems -/

/-- C1: the coupon redemption code does NOT make the increment a
conditioned write, and it creates the License row before the increment.
Both `SELECT`-phases of two overlapping redemptions of a one-use coupon
pass on the same initial state; each write phase then inserts a license
and runs the unconditioned
`UPDATE coupon_codes SET current_uses = current_uses + 1`: even though
the coupon is already exhausted (`current_uses = 1 = max_uses`) when
the second write executes, the second increment still succeeds, leaving
`current_uses = 2 > max_uses` and two minted licenses — instead of the
claimed one success and one `Exhausted` with no license. -/
theorem coupon_redeem_race_overshoot :
    (redeemCheck dbCoupon 0 "CODE1" "p1").toOption = some couponC ∧
    (redeemWrites dbCoupon 0 "CODE1" "p1" couponC "jtiA").2.coupons.find?
      (fun c => c.code == "CODE1") = some { couponC with currentUses := 1 } ∧
    (redeemWrites (redeemWrites dbCoupon 0 "CODE1" "p1" couponC "jtiA").2 0 "CODE1" "p1"
        couponC "jtiB").2.coupons.find?
      (fun c => c.code == "CODE1") = some { couponC with currentUses := 2 } ∧
    (redeemWrites (redeemWrites dbCoupon 0 "CODE1" "p1" couponC "jtiA").2 0 "CODE1" "p1"
        couponC "jtiB").2.licenses.length = 2 := by
  decide

/-- C2: no signature verification is performed on consumed tokens.  A
license token whose signature does not verify is accepted by
`POST /v1/activate/start` and its `jti` claim is trusted (a session row
is persisted for it); an activation certificate whose signature does
not verify drives `POST /v1/heartbeat` (which answers ok and updates
`last_seen` from its claims) and `POST /v1/usage/meter` (which admits
usage and appends a UsageRecord under its claims). -/
theorem forged_tokens_accepted :
    (activateStart dbLic 1000 "p1" forgedLicTok "di" "a1" "ch").1 = .ok "a1" "ch" ∧
    (activateStart dbLic 1000 "p1" forgedLicTok "di" "a1" "ch").2.activationSessions
      = [⟨"a1", "L1", "ch", "di"⟩] ∧
    (heartbeat dbAct 55 forgedCert none).1 = true ∧
    (heartbeat dbAct 55 forgedCert none).2.activations
      = [⟨"a1", "L1", "d1", "c1", "{}", 55, false⟩] ∧
    (meterUsage dbAct 0 forgedCert "b" 1).1 = .allowed ∧
    (meterUsage dbAct 0 forgedCert "b" 1).2.usage
      = [⟨"L1", "d1", "b", 1, 0, 0, "197001"⟩] := by
  decide

/-- C3: the first successful Finish does NOT consume the activation
session — the session row is still present afterwards — and a second
Finish with the same `activationId` is not answered with the handled
`NotFound`/`Conflict` JSON error: it finds the session again and dies
on the duplicate-primary-key `INSERT` into `activations`, an unhandled
exception (500-class).  It does, however, create no new Activation and
no certificate. -/
theorem finish_session_not_consumed :
    (activateFinish dbSess 100 "a1" "cred1" "d1").1
      = .ok ⟨⟨"activation", "p1", "L1", "d1", "webauthn", 604900⟩, true⟩ ∧
    (activateFinish dbSess 100 "a1" "cred1" "d1").2.activationSessions = [sessA] ∧
    activateFinish (activateFinish dbSess 100 "a1" "cred1" "d1").2 200 "a1" "cred2" "d2"
      = (.dbError, (activateFinish dbSess 100 "a1" "cred1" "d1").2) := by
  decide

/-- C4: Finish performs no `AlreadyBound` check.  With `L1` already
bound to device `devA`, finishing a second session for the same license
mints a fresh device id and succeeds, leaving the license bound to two
devices — instead of the claimed `Conflict`. -/
theorem finish_rebinds_other_device :
    (activateFinish (activateFinish dbSess2 100 "a1" "c1" "devA").2 200 "a2" "c2" "devB").1
      = .ok ⟨⟨"activation", "p1", "L1", "devB", "webauthn", 605000⟩, true⟩ ∧
    (activateFinish (activateFinish dbSess2 100 "a1" "c1" "devA").2 200 "a2" "c2" "devB").2.activations
      = [⟨"a1", "L1", "devA", "c1", "{}", 100, false⟩,
         ⟨"a2", "L1", "devB", "c2", "{}", 200, false⟩] := by
  decide

/-- C5: revocation cascades to both rows atomically and Meter then
fails as claimed, but Heartbeat ignores the revoked flags: after
`RevokeLicense L1`, a heartbeat presenting a certificate for `(L1, d1)`
still answers ok and still updates the revoked activation's
`last_seen` — instead of the claimed `Unauthorized/Revoked` failure. -/
theorem revoked_heartbeat_still_ok :
    (revokeLicense dbAct "L1").licenses = [{ licL1 with revoked := true }] ∧
    (revokeLicense dbAct "L1").activations = [{ actA with revoked := true }] ∧
    meterUsage (revokeLicense dbAct "L1") 1000 certL1 "b" 1
      = (.invalid, revokeLicense dbAct "L1") ∧
    heartbeat (revokeLicense dbAct "L1") 99 certL1 none
      = (true, { revokeLicense dbAct "L1" with
          activations := [⟨"a1", "L1", "d1", "c1", "{}", 99, true⟩] }) := by
  decide

/-! ## Fixtures for the quota-path witnesses -/

/-- A license whose `general` bucket has a daily limit of 100. -/
def lic100 : License :=
  ⟨"L1", "p1", "individual", ⟨none, [("general", some 100)]⟩, 2000000000, false⟩

/-- Database holding only `lic100`, with no usage yet. -/
def db100 : DB := ⟨[lic100], [], [], [], [], []⟩

/-- A usage row putting the `general` day-window sum at 200. -/
def overUse : UsageRecord := ⟨"L1", "d1", "general", 200, 0, 0, "197001"⟩

/-- Database where `lic100` has already used 200 in the `general` bucket. -/
def dbOver : DB := ⟨[lic100], [], [], [overUse], [], []⟩

/-- A license whose bucket and global daily limits are both the falsy 0. -/
def licZero : License :=
  ⟨"L1", "p1", "individual", ⟨some 0, [("b", some 0)]⟩, 2000000000, false⟩

/-- A usage row putting the `b` day-window sum at 1000000 already. -/
def bigUse : UsageRecord := ⟨"L1", "d1", "b", 1000000, 0, 0, "197001"⟩

/-- Database where `licZero` has already used 1000000 in bucket `b`. -/
def dbZero : DB := ⟨[licZero], [], [], [bigUse], [], []⟩

/-- An already-recorded distinct-user sighting. -/
def seenU : UserSeen := ⟨"L1", "d1", "u1"⟩

/-- Database with no activations and one recorded sighting. -/
def dbSeen : DB := ⟨[licL1], [], [], [], [seenU], []⟩

/-- C6: with a resolved daily limit of 100 and a day-window sum of 0,
the first 100 sequential cost-1 Meter calls are all admitted (each
appending one UsageRecord) and the 101st is denied with `remaining = 0`
and `resetAt` the start of the next UTC day; and the applicable limit
resolves to the per-bucket daily limit when that is configured truthy,
else to the license's global daily limit, else to none (unlimited). -/
theorem meter_quota_exactness (db : DB) (tMs : Nat) (cert : Jwt CertClaims) (bucket : String)
    (lic : License)
    (hfind : findLicense db cert.payload.jti = some lic)
    (hexp : ¬ lic.exp * 1000 < (tMs : Int))
    (hlim : resolveDailyLimit lic.quotas bucket = some 100)
    (hsum : sumUsage db cert.payload.jti (dayKeyOf tMs) bucket = 0) :
    (∀ r ∈ (meterSeq tMs cert bucket 1 100 db).1, r = .allowed) ∧
    (meterSeq tMs cert bucket 1 100 db).2.usage.length = db.usage.length + 100 ∧
    meterUsage (meterSeq tMs cert bucket 1 100 db).2 tMs cert bucket 1 =
      (.denied bucket 0 ((tMs / 86400000 + 1) * 86400000),
       (meterSeq tMs cert bucket 1 100 db).2) ∧
    (∀ (q : Quotas) (b : String) (v : Int), bucketDaily q b = some v → v ≠ 0 →
      resolveDailyLimit q b = some v) ∧
    (∀ (q : Quotas) (b : String), bucketDaily q b = none →
      resolveDailyLimit q b = q.daily) := by
  obtain ⟨i1, i2, i3, i4⟩ := meterSeq_allowed_invariant tMs cert bucket lic 100 100 db
    hfind hexp hlim (by norm_num) (by rw [hsum]; norm_num)
  refine ⟨i1, i3, ?_, ?_, ?_⟩
  · have hfind2 : findLicense (meterSeq tMs cert bucket 1 100 db).2 cert.payload.jti =
        some lic :=
      (findLicense_congr db (meterSeq tMs cert bucket 1 100 db).2 cert.payload.jti i2).trans
        hfind
    have hsum2 : sumUsage (meterSeq tMs cert bucket 1 100 db).2 cert.payload.jti
        (dayKeyOf tMs) bucket = 100 := by
      rw [i4, hsum]; norm_num
    have hden := meterUsage_denied_over (meterSeq tMs cert bucket 1 100 db).2 tMs cert bucket
      1 lic 100 hfind2 hexp hlim (by norm_num) (by rw [hsum2]; norm_num)
    rw [hden, hsum2, resetAtOf_eq]
    norm_num
  · intro q b v hb hv
    unfold resolveDailyLimit jsOrInt
    rw [hb]
    simp [truthyInt, hv]
  · intro q b hb
    unfold resolveDailyLimit jsOrInt
    rw [hb]
    simp [truthyInt]

/-- C6 witness: the 100-then-denied scenario at a concrete license. -/
theorem meter_quota_exactness_witness :
    (meterSeq 0 certL1 "general" 1 100 db100).2.usage.length = db100.usage.length + 100 ∧
    meterUsage (meterSeq 0 certL1 "general" 1 100 db100).2 0 certL1 "general" 1 =
      (.denied "general" 0 86400000, (meterSeq 0 certL1 "general" 1 100 db100).2) :=
  have h := meter_quota_exactness db100 0 certL1 "general" lic100
    (by decide) (by decide) (by decide) (by decide)
  ⟨h.2.1, h.2.2.1⟩

/-- C7: a denied Meter call reports `remaining = limit − cumulative` and
`resetAt` = start of the next UTC day, and appends nothing (the
database is unchanged). -/
theorem meter_denied_reports (db : DB) (tMs : Nat) (cert : Jwt CertClaims) (bucket : String)
    (cost : Int) (lic : License) (L : Int)
    (hfind : findLicense db cert.payload.jti = some lic)
    (hexp : ¬ lic.exp * 1000 < (tMs : Int))
    (hlim : resolveDailyLimit lic.quotas bucket = some L) (hL : L ≠ 0)
    (hover : sumUsage db cert.payload.jti (dayKeyOf tMs) bucket + cost > L) :
    meterUsage db tMs cert bucket cost =
      (.denied bucket (L - sumUsage db cert.payload.jti (dayKeyOf tMs) bucket)
        ((tMs / 86400000 + 1) * 86400000), db) := by
  rw [meterUsage_denied_over db tMs cert bucket cost lic L hfind hexp hlim hL hover,
    resetAtOf_eq]

/-- C7 witness: a concrete denial over a limit of 100 with cumulative
usage 200 reports `remaining = -100` and the next UTC midnight. -/
theorem meter_denied_reports_witness :
    meterUsage dbOver 0 certL1 "general" 1 =
      (.denied "general" (-100) 86400000, dbOver) :=
  meter_denied_reports dbOver 0 certL1 "general" 1 lic100 100
    (by decide) (by decide) (by decide) (by decide) (by decide)

/-- C8: every admitted Meter call appends exactly one UsageRecord whose
cost is the literal requested cost, with
`dayKey = floor(epochMillis / 86400000)`,
`minuteKey = floor(epochMillis / 60000)` and `monthKey` the UTC year
and zero-padded month `"YYYYMM"`. -/
theorem meter_admitted_appends_one (db : DB) (tMs : Nat) (cert : Jwt CertClaims)
    (bucket : String) (cost : Int) (db2 : DB)
    (h : meterUsage db tMs cert bucket cost = (.allowed, db2)) :
    db2.usage = db.usage ++
      [⟨cert.payload.jti, cert.payload.deviceId, bucket, cost, tMs / 86400000, tMs / 60000,
        toString (civilFromDays (tMs / 86400000)).1 ++
          pad2 (civilFromDays (tMs / 86400000)).2.1⟩] := by
  unfold meterUsage at h
  split at h
  · exact absurd h (by simp)
  · split at h
    · exact absurd h (by simp)
    · split at h
      · split at h
        · split at h
          · exact absurd h (by simp)
          · simp only [Prod.mk.injEq] at h
            rw [← h.2]
            exact rfl
        · simp only [Prod.mk.injEq] at h
          rw [← h.2]
          exact rfl
      · simp only [Prod.mk.injEq] at h
        rw [← h.2]
        exact rfl

/-- C8 witness: a concrete admitted call appends the expected record. -/
theorem meter_admitted_appends_one_witness :
    (meterUsage db100 0 certL1 "general" 1).2.usage = db100.usage ++
      [⟨"L1", "d1", "general", 1, 0, 0, "197001"⟩] :=
  meter_admitted_appends_one db100 0 certL1 "general" 1
    (meterUsage db100 0 certL1 "general" 1).2 (by decide)

/-- C9: when the resolved daily limit is falsy (absent or the number 0),
Meter performs no quota check at all: whatever the existing usage, the
call is admitted and a UsageRecord is appended — a configured limit of
0 behaves as unlimited, not as deny-all. -/
theorem meter_zero_limit_unlimited (db : DB) (tMs : Nat) (cert : Jwt CertClaims)
    (bucket : String) (cost : Int) (lic : License)
    (hfind : findLicense db cert.payload.jti = some lic)
    (hexp : ¬ lic.exp * 1000 < (tMs : Int))
    (hfalsy : resolveDailyLimit lic.quotas bucket = none ∨
      resolveDailyLimit lic.quotas bucket = some 0) :
    meterUsage db tMs cert bucket cost =
      (.allowed, { db with usage := db.usage ++
        [⟨cert.payload.jti, cert.payload.deviceId, bucket, cost, dayKeyOf tMs,
          minuteKeyOf tMs, monthKeyOf tMs⟩] }) := by
  apply meterUsage_falsy_allowed db tMs cert bucket cost lic hfind hexp
  rcases hfalsy with h | h <;> simp [truthyInt, h]

/-- C9 witness: a license with bucket and global daily limits both 0 is
admitted even with 1000000 already used that day. -/
theorem meter_zero_limit_unlimited_witness :
    meterUsage dbZero 0 certL1 "b" 1 =
      (.allowed, { dbZero with usage := dbZero.usage ++
        [⟨"L1", "d1", "b", 1, 0, 0, "197001"⟩] }) :=
  meter_zero_limit_unlimited dbZero 0 certL1 "b" 1 licZero
    (by decide) (by decide) (Or.inr (by decide))

/-- C10: Heartbeat answers ok for any decodable certificate — it never
fails NotFound: when no Activation matches the `(jti, deviceId)` pair
the `last_seen` update touches zero rows, and a duplicate distinct-user
sighting for the same `(jti, deviceId, userIdHash)` leaves `users_seen`
unchanged. -/
theorem heartbeat_always_ok (db : DB) (nowSec : Int) (cert : Jwt CertClaims)
    (userIdHash : Option String) :
    (heartbeat db nowSec cert userIdHash).1 = true ∧
    ((∀ a ∈ db.activations,
        ¬(a.jti = cert.payload.jti ∧ a.deviceId = cert.payload.deviceId)) →
      (heartbeat db nowSec cert userIdHash).2.activations = db.activations) ∧
    (∀ hsh : String, userIdHash = some hsh →
      (⟨cert.payload.jti, cert.payload.deviceId, hsh⟩ : UserSeen) ∈ db.usersSeen →
      (heartbeat db nowSec cert userIdHash).2.usersSeen = db.usersSeen) := by
  refine ⟨rfl, ?_, ?_⟩
  · intro hnone
    show db.activations.map _ = db.activations
    apply map_eq_self_of
    intro a ha
    have hna := hnone a ha
    have hcond : (a.jti == cert.payload.jti && a.deviceId == cert.payload.deviceId) = false := by
      by_cases h1 : a.jti = cert.payload.jti
      · by_cases h2 : a.deviceId = cert.payload.deviceId
        · exact absurd ⟨h1, h2⟩ hna
        · simp [h2]
      · simp [h1]
    simp [hcond]
  · intro hsh hEq hmem
    show (if truthyStr userIdHash = true then
        insertOrIgnoreSeen db.usersSeen
          ⟨cert.payload.jti, cert.payload.deviceId, userIdHash.getD ""⟩
      else db.usersSeen) = db.usersSeen
    subst hEq
    by_cases hne : hsh = ""
    · simp [truthyStr, hne]
    · have ht : truthyStr (some hsh) = true := by simp [truthyStr, hne]
      rw [ht, if_pos rfl]
      unfold insertOrIgnoreSeen
      simp only [Option.getD_some]
      rw [if_pos hmem]

/-- C10 witness: ok with zero matching activations, and a duplicate
sighting leaves the relation unchanged. -/
theorem heartbeat_always_ok_witness :
    (heartbeat dbSeen 5 certL1 (some "u1")).1 = true ∧
    (heartbeat dbSeen 5 certL1 (some "u1")).2.activations = dbSeen.activations ∧
    (heartbeat dbSeen 5 certL1 (some "u1")).2.usersSeen = dbSeen.usersSeen :=
  have h := heartbeat_always_ok dbSeen 5 certL1 (some "u1")
  ⟨h.1, h.2.1 (by simp [dbSeen]), h.2.2 "u1" rfl (by decide)⟩

end BAAS
